import Mathlib

/-!
Verification of the OAuth token-lifecycle core of orthanc-dicomweb-oauth.

Shallow embedding of the Python sources:
  src/secrets_manager.py        (SecretsManager)
  src/resilience/retry_strategy.py  (RetryStrategy, FixedBackoff, LinearBackoff,
                                     ExponentialBackoff, RetryConfig.execute)
  src/resilience/circuit_breaker.py (CircuitBreaker)
  src/oauth_providers/factory.py    (OAuthProviderFactory.auto_detect)
  src/oauth_providers/generic.py    (GenericOAuth2Provider.acquire_token)
  src/token_manager.py              (TokenManager.get_token and the two
                                     acquisition paths)

Conventions: wall-clock instants (Python floats / datetimes) are integers in
seconds, backoff delays are rationals; fallible Python code returns Except;
exceptions are the PErr inductive; the provider and the HTTP layer are
oracles passed as functions, indexed by how many invocations have happened
so far, so that a theorem can count invocations exactly.
-/

namespace OrthancOAuth

/-! ### Exceptions

Python exception classes that cross the boundaries the claims are about.
`cause` fields record the `raise ... from e` chaining.
-/

/-- Error codes from src/error_codes.py that the modelled code raises. -/
inductive ErrCode where
  | tokenAcquisitionFailed
  | tokenValidationFailed
  | tokenInvalidResponse
  | networkTimeout
  | networkConnectionError
deriving DecidableEq

/-- Python exceptions crossing the modelled boundaries: requests.Timeout,
requests.ConnectionError, NetworkError, TokenAcquisitionError,
RetryExhaustedError, CircuitBreakerError, AssertionError and any other
exception (tagged to keep instances distinguishable). -/
inductive PErr where
  | timeoutExc
  | connectionExc
  | networkError (code : ErrCode)
  | tokenAcquisitionError (code : ErrCode) (cause : Option PErr)
  | retryExhausted (cause : Option PErr)
  | circuitBreakerError
  | assertionError
  | otherError (tag : Nat)

/-- `isinstance(e, (requests.Timeout, requests.ConnectionError, NetworkError))`:
the tuple of the first except-clause of `_acquire_with_legacy_retry`. -/
def PErr.isNetworkClass : PErr → Bool
  | .timeoutExc => true
  | .connectionExc => true
  | .networkError _ => true
  | _ => false

/-- `isinstance(e, (TokenAcquisitionError, NetworkError))`: the tuple of the
structured-error except-clauses in token_manager.py. -/
def PErr.isStructured : PErr → Bool
  | .tokenAcquisitionError _ _ => true
  | .networkError _ => true
  | _ => false

/-- `isinstance(e, TokenAcquisitionError)` (used by `_create_retry_config`). -/
def PErr.isTokenAcquisitionError : PErr → Bool
  | .tokenAcquisitionError _ _ => true
  | _ => false

/-! ### SecretsManager (src/secrets_manager.py)

Fernet is modelled as an ideal authenticated symmetric cipher: a ciphertext
records the encrypting key and the plaintext; decryption succeeds exactly
when the decrypting instance holds the same key (otherwise Fernet raises
InvalidToken, modelled as `none`). `Fernet.generate_key()` draws a fresh
random key per instance, so distinct instances are modelled by distinct keys.
-/

/-- A Fernet ciphertext: the key it was produced under and the payload. -/
structure Ciphertext where
  key : Nat
  plaintext : String
deriving DecidableEq

/-- `SecretsManager.__init__` stores a freshly generated Fernet key. -/
structure SecretsManager where
  key : Nat
deriving DecidableEq

/-- `SecretsManager.encrypt_secret`. -/
def SecretsManager.encrypt_secret (m : SecretsManager) (secret : String) :
    Ciphertext :=
  ⟨m.key, secret⟩

/-- `SecretsManager.decrypt_secret`; `none` models the InvalidToken raise on a
ciphertext from another key or corrupted. -/
def SecretsManager.decrypt_secret (m : SecretsManager) (c : Ciphertext) :
    Option String :=
  if c.key = m.key then some c.plaintext else none

/-! ### Retry strategies (src/resilience/retry_strategy.py) -/

/-- `RetryStrategy.get_delay(attempt)`, attempt 0-indexed. -/
structure RetryStrategy where
  get_delay : Nat → ℚ

/-- `FixedBackoff(delay)`. -/
def FixedBackoff (delay : ℚ) : RetryStrategy :=
  ⟨fun _ => delay⟩

/-- `LinearBackoff(initial_delay, increment)`. -/
def LinearBackoff (initial_delay increment : ℚ) : RetryStrategy :=
  ⟨fun attempt => initial_delay + attempt * increment⟩

/-- `ExponentialBackoff(initial_delay, multiplier, max_delay)`. -/
def ExponentialBackoff (initial_delay multiplier : ℚ)
    (max_delay : Option ℚ) : RetryStrategy :=
  ⟨fun attempt =>
    let delay := initial_delay * multiplier ^ attempt
    match max_delay with
    | some m => min delay m
    | none => delay⟩

/-- `RetryConfig(max_attempts, strategy, should_retry, on_retry)`; the
`on_retry` callback only logs and is omitted. -/
structure RetryConfig (ε : Type) where
  max_attempts : Nat
  strategy : RetryStrategy
  should_retry : ε → Bool

/-- Outcome of `RetryConfig.execute`: normal return, an exception re-raised
by the `should_retry` gate, or `RetryExhaustedError from last_exception`. -/
inductive RetryOutcome (ε α : Type) where
  | ok (a : α)
  | raised (e : ε)
  | exhausted (last : Option ε)

/-- The `for attempt in range(self.max_attempts)` loop of
`RetryConfig.execute`, entered at loop index `attempt` with
`remaining = max_attempts - attempt` iterations left and the Python
`last_exception` variable holding `last`; the Python guard
`attempt >= self.max_attempts - 1` is `remaining = 1` and loop exit is
`remaining = 0`. The operation is an oracle indexed by the loop index.
Returns (number of invocations of `func` counting from loop index 0, the
delays slept, the outcome). -/
def RetryConfig.executeFrom {ε α : Type} (rc : RetryConfig ε)
    (op : Nat → Except ε α) :
    Nat → Nat → Option ε → Nat × List ℚ × RetryOutcome ε α
  | attempt, 0, last => (attempt, [], .exhausted last)
  | attempt, _remaining + 1, _last =>
    match op attempt, _remaining with
    | .ok a, _ => (attempt + 1, [], .ok a)
    | .error e, 0 =>
      if ¬ rc.should_retry e then (attempt + 1, [], .raised e)
      else (attempt + 1, [], .exhausted (some e))
    | .error e, r + 1 =>
      if ¬ rc.should_retry e then (attempt + 1, [], .raised e)
      else
        let rest := rc.executeFrom op (attempt + 1) (r + 1) (some e)
        (rest.1, rc.strategy.get_delay attempt :: rest.2.1, rest.2.2)

/-- `RetryConfig.execute(func)`. -/
def RetryConfig.execute {ε α : Type} (rc : RetryConfig ε)
    (op : Nat → Except ε α) : Nat × List ℚ × RetryOutcome ε α :=
  rc.executeFrom op 0 rc.max_attempts none

/-! ### CircuitBreaker (src/resilience/circuit_breaker.py)

The mutable fields of the breaker (`_state`, `_failure_count`,
`_last_failure_time`) form `CBData`; the constructor parameters form
`CircuitBreaker`. `call` runs under the instance lock, so one call is one
atomic step on `CBData`; the wrapped function is an `Except` outcome supplied
by the caller, and the `exception_filter` is a predicate on the raised
exception. The metrics counters only feed `get_metrics` and are omitted.
-/

/-- `CircuitBreakerState`. -/
inductive CBState where
  | closed
  | opened
  | halfOpen
deriving DecidableEq

/-- Constructor parameters of `CircuitBreaker.__init__` (the
`exception_filter` is passed separately where `call` is modelled, to keep
the structure decidable). -/
structure CircuitBreaker where
  failure_threshold : Nat
  timeout : Int
deriving DecidableEq

/-- The mutable state of a `CircuitBreaker` instance. -/
structure CBData where
  state : CBState
  failure_count : Nat
  last_failure_time : Option Int
deriving DecidableEq

/-- Initial state set in `CircuitBreaker.__init__`. -/
def CBData.initial : CBData :=
  ⟨.closed, 0, none⟩

/-- `CircuitBreaker._should_attempt_reset` at wall-clock instant `now`. -/
def CircuitBreaker.shouldAttemptReset (cb : CircuitBreaker) (d : CBData)
    (now : Int) : Bool :=
  match d.last_failure_time with
  | none => true
  | some t => cb.timeout ≤ now - t

/-- `CircuitBreaker._on_success`. -/
def CBData.onSuccess (d : CBData) : CBData :=
  { d with
    failure_count := 0
    state := if d.state = .halfOpen then .closed else d.state }

/-- `CircuitBreaker._on_failure` at instant `now`. -/
def CircuitBreaker.onFailure (cb : CircuitBreaker) (d : CBData) (now : Int) :
    CBData :=
  let fc := d.failure_count + 1
  { state := if cb.failure_threshold ≤ fc then .opened else d.state
    failure_count := fc
    last_failure_time := some now }

/-- Result of `CircuitBreaker.call`: either the call was rejected with
CircuitBreakerError before invoking the wrapped function, or the function
was invoked (exactly once) with the given outcome, which `call` re-raises
or returns unchanged. -/
inductive CBResult (ε α : Type) where
  | rejected
  | executed (r : Except ε α)

/-- The part of `CircuitBreaker.call` after the state-check phase: invoke
the wrapped function and dispatch to `_on_success` / `_on_failure`
(the latter only when `exception_filter` accepts the exception). -/
def CircuitBreaker.runCall {ε α : Type} (cb : CircuitBreaker)
    (filter : ε → Bool) (d : CBData) (now : Int) (op : Except ε α) :
    CBResult ε α × CBData :=
  match op with
  | .ok a => (.executed (.ok a), d.onSuccess)
  | .error e =>
    (.executed (.error e), if filter e then cb.onFailure d now else d)

/-- `CircuitBreaker.call(func)` as one atomic step: the locked state-check
phase (OPEN either rejects or moves to HALF_OPEN), then the wrapped call. -/
def CircuitBreaker.call {ε α : Type} (cb : CircuitBreaker)
    (filter : ε → Bool) (d : CBData) (now : Int) (op : Except ε α) :
    CBResult ε α × CBData :=
  match d.state with
  | .opened =>
    if cb.shouldAttemptReset d now then
      cb.runCall filter { d with state := .halfOpen } now op
    else
      (.rejected, d)
  | _ => cb.runCall filter d now op

/-- `CircuitBreaker.reset`. -/
def CircuitBreaker.resetData : CBData :=
  ⟨.closed, 0, none⟩

/-- Fold `CircuitBreaker.call` over a sequence of (instant, outcome) events,
keeping only the state evolution. -/
def CircuitBreaker.callMany {ε α : Type} (cb : CircuitBreaker)
    (filter : ε → Bool) (d : CBData) (evs : List (Int × Except ε α)) : CBData :=
  evs.foldl (fun d' ev => (cb.call filter d' ev.1 ev.2).2) d

/-! ### Substring search

`auto_detect` uses the Python `in` operator on strings; embedded as a
contiguous-subsequence search over the character list.
-/

/-- Does `needle` occur at the very start of `hay`? -/
def seqAt : List Char → List Char → Bool
  | [], _ => true
  | _ :: _, [] => false
  | a :: ns, b :: hs => a == b && seqAt ns hs

/-- Does `needle` occur contiguously anywhere in `hay`? -/
def seqIn (needle hay : List Char) : Bool :=
  match hay with
  | [] => needle.isEmpty
  | _ :: hs => seqAt needle hay || seqIn needle hs

/-- Python `needle in hay` on strings. -/
def strContains (hay needle : String) : Bool :=
  seqIn needle.toList hay.toList

/-- Python `str.lower()`. -/
def strLower (s : String) : String :=
  ⟨s.toList.map Char.toLower⟩

/-! ### OAuthProviderFactory.auto_detect (src/oauth_providers/factory.py) -/

/-- `OAuthProviderFactory.auto_detect(config)`, as a function of
`config.get("TokenEndpoint", "")`. -/
def auto_detect (token_endpoint : String) : String :=
  if strContains token_endpoint "login.microsoftonline.com" then "azure"
  else if strContains token_endpoint "oauth2.googleapis.com" then "google"
  else if strContains token_endpoint "amazonaws.com"
      || strContains (strLower token_endpoint) "aws" then "aws"
  else if strContains token_endpoint "/auth/realms/" then "keycloak"
  else "generic"

/-! ### OAuthToken and GenericOAuth2Provider.acquire_token
(src/oauth_providers/base.py, src/oauth_providers/generic.py)

The HTTP POST to the token endpoint is an oracle: either a requests
exception or the parsed `response.json_data` (a JSON object as an
association list, `none` when the body was not an object). JSON scalars are
strings or integers; where Python reads a value of the "wrong" dynamic
type, the string view of the value is used.
-/

/-- A JSON scalar in the token response. -/
inductive JVal where
  | jstr (s : String)
  | jint (n : Int)
deriving DecidableEq

/-- `response.json_data` of the injected HTTP client. -/
abbrev TokenResponse := Option (List (String × JVal))

/-- Exceptions raised by the HTTP client: requests.Timeout,
requests.ConnectionError, any other requests.RequestException. -/
inductive ReqErr where
  | timeoutExc
  | connectionExc
  | requestExc (tag : Nat)
deriving DecidableEq

/-- Python dict key lookup `td[k]` / membership (first binding wins). -/
def jlookup (td : List (String × JVal)) (k : String) : Option JVal :=
  match td.find? (fun p => p.1 == k) with
  | some p => some p.2
  | none => none

/-- String view of a JSON scalar. -/
def JVal.asStr : JVal → String
  | .jstr s => s
  | .jint n => toString n

/-- `td.get(k, d)` read as a string. -/
def jstrGetD (td : List (String × JVal)) (k : String) (d : String) : String :=
  match jlookup td k with
  | some v => v.asStr
  | none => d

/-- `td.get(k, d)` read as an integer (seconds). -/
def jintGetD (td : List (String × JVal)) (k : String) (d : Int) : Int :=
  match jlookup td k with
  | some (.jint n) => n
  | some (.jstr _) => d
  | none => d

/-- `OAuthToken` (src/oauth_providers/base.py). -/
structure OAuthToken where
  access_token : String
  expires_in : Int
  token_type : String
  refresh_token : Option String
  scope : Option String
deriving DecidableEq

/-- `GenericOAuth2Provider.acquire_token`, as a function of the HTTP POST
outcome `resp`. `not token_data or "access_token" not in token_data` raises
the invalid-response TokenAcquisitionError; otherwise the OAuthToken is
built with `expires_in` defaulting to 3600 (DEFAULT_TOKEN_EXPIRY_SECONDS)
and `token_type` defaulting to "Bearer". Timeout / ConnectionError map to
NetworkError codes, any other RequestException to a wrapped
TokenAcquisitionError. -/
def GenericOAuth2Provider.acquire_token (resp : Except ReqErr TokenResponse) :
    Except PErr OAuthToken :=
  match resp with
  | .error .timeoutExc => .error (.networkError .networkTimeout)
  | .error .connectionExc => .error (.networkError .networkConnectionError)
  | .error (.requestExc tag) =>
    .error (.tokenAcquisitionError .tokenAcquisitionFailed
      (some (.otherError tag)))
  | .ok none => .error (.tokenAcquisitionError .tokenInvalidResponse none)
  | .ok (some td) =>
    if td.isEmpty || (jlookup td "access_token").isNone then
      .error (.tokenAcquisitionError .tokenInvalidResponse none)
    else
      .ok
        { access_token := jstrGetD td "access_token" ""
          expires_in := jintGetD td "expires_in" 3600
          token_type := jstrGetD td "token_type" "Bearer"
          refresh_token := (jlookup td "refresh_token").map JVal.asStr
          scope := (jlookup td "scope").map JVal.asStr }

/-! ### TokenManager (src/token_manager.py)

The mutable fields of the manager (`_encrypted_cached_token`,
`_token_expiry`, and the state of the wrapped circuit breaker) form
`TMState`. `get_token` holds
`self._lock` for the whole call, so one call is one atomic step. The OAuth
provider is an oracle `provider : Nat → Except PErr OAuthToken` indexed by
the number of `provider.acquire_token()` invocations already made during the
call, and `provider.validate_token` is a predicate on the plaintext token;
every transition function also returns the total number of
`provider.acquire_token()` invocations it made. Wall-clock instants (both
`time.time()` and `datetime.now(timezone.utc)`) are one rational `now` per
call. Retry sleeps and log/metrics emissions do not affect the modelled
state and are omitted here (delays are tracked in the generic
`RetryConfig.execute` above).
-/

/-- `MAX_TOKEN_ACQUISITION_RETRIES` (token_manager.py). -/
def MAX_TOKEN_ACQUISITION_RETRIES : Nat := 3

/-- `DEFAULT_REFRESH_BUFFER_SECONDS` (token_manager.py). -/
def DEFAULT_REFRESH_BUFFER_SECONDS : Int := 300

/-- The configuration-derived immutable fields of a `TokenManager`:
`refresh_buffer_seconds`, the per-instance `SecretsManager`, the result of
`_create_circuit_breaker` (none unless CircuitBreakerEnabled) and of
`_create_retry_config` (none unless RetryMaxAttempts is set; otherwise the
configured max attempts and backoff strategy — its `should_retry` and the
`exception_filter` of the breaker are the fixed lambdas of token_manager.py,
inlined below). -/
structure TokenManager where
  refresh_buffer_seconds : Int
  secrets : SecretsManager
  breaker_settings : Option CircuitBreaker
  retry_settings : Option (Nat × RetryStrategy)

/-- Mutable state of a `TokenManager` instance. -/
structure TMState where
  encrypted_cached_token : Option Ciphertext
  token_expiry : Option Int
  breaker : CBData

/-- The state before any successful acquisition (`__init__`). -/
def TMState.initial : TMState :=
  ⟨none, none, CBData.initial⟩

/-- The `exception_filter` lambda passed to the breaker by
`_create_circuit_breaker`: `isinstance(e, (requests.Timeout,
requests.ConnectionError, TokenAcquisitionError))`. -/
def tmExceptionFilter : PErr → Bool
  | .timeoutExc => true
  | .connectionExc => true
  | .tokenAcquisitionError _ _ => true
  | _ => false

/-- `_set_cached_token`: encrypt and store. -/
def TokenManager.set_cached_token (tm : TokenManager) (st : TMState)
    (token : String) : TMState :=
  { st with encrypted_cached_token := some (tm.secrets.encrypt_secret token) }

/-- `_get_cached_token`: `none` when nothing is cached; decryption of a
foreign ciphertext would raise and is also `none` here (never reached by
the manager itself, which always decrypts with its own instance). -/
def TokenManager.get_cached_token (tm : TokenManager) (st : TMState) :
    Option String :=
  match st.encrypted_cached_token with
  | none => none
  | some c => tm.secrets.decrypt_secret c

/-- `_is_token_valid`: a cached token and expiry exist and
`now + buffer < expiry`. -/
def TokenManager.is_token_valid (tm : TokenManager) (st : TMState)
    (now : Int) : Bool :=
  match st.encrypted_cached_token, st.token_expiry with
  | some _, some expiry => decide (now + tm.refresh_buffer_seconds < expiry)
  | _, _ => false

/-- The body shared verbatim by `attempt_acquire` (inside
`_acquire_with_retry_config`) and the try-block of one iteration of
`_acquire_with_legacy_retry`: call the provider; on success cache the
encrypted token and set `_token_expiry = now + expires_in` BEFORE
validating; if `validate_token` rejects, raise the validation
TokenAcquisitionError (with the cache already overwritten); otherwise
return the decrypted cached token (the `assert cached_token is not None`
failing is an AssertionError). A provider exception propagates with the
state untouched. -/
def TokenManager.acquireAttemptBody (tm : TokenManager) (st : TMState)
    (now : Int) (acq : Except PErr OAuthToken) (validate : String → Bool) :
    Except PErr String × TMState :=
  match acq with
  | .error e => (.error e, st)
  | .ok tok =>
    let st1 : TMState :=
      { st with
        encrypted_cached_token := some (tm.secrets.encrypt_secret
          tok.access_token)
        token_expiry := some (now + tok.expires_in) }
    if ¬ validate tok.access_token then
      (.error (.tokenAcquisitionError .tokenValidationFailed none), st1)
    else
      match tm.get_cached_token st1 with
      | some t => (.ok t, st1)
      | none => (.error .assertionError, st1)

/-- The `for attempt in range(max_retries)` loop of
`_acquire_with_legacy_retry`, entered at loop index `attempt` with
`remaining = max_retries - attempt` iterations left (the Python guard
`attempt < max_retries - 1` is `remaining > 1`, and the unreachable
fall-through raise after the loop is `remaining = 0`): network-class
exceptions (requests.Timeout, requests.ConnectionError, NetworkError) retry
while attempts remain and are wrapped into
TokenAcquisitionError(TOKEN_ACQUISITION_FAILED) `from e` on the last one;
TokenAcquisitionError / NetworkError re-raise as-is; anything else is
wrapped immediately. Returns (result, state, number of provider
invocations). -/
def TokenManager.legacyFrom (tm : TokenManager) (now : Int)
    (provider : Nat → Except PErr OAuthToken) (validate : String → Bool) :
    Nat → Nat → TMState → Except PErr String × TMState × Nat
  | attempt, 0, st =>
    (.error (.tokenAcquisitionError .tokenAcquisitionFailed none), st,
      attempt)
  | attempt, _remaining + 1, st =>
    match tm.acquireAttemptBody st now (provider attempt) validate,
        _remaining with
    | (.ok t, st1), _ => (.ok t, st1, attempt + 1)
    | (.error e, st1), 0 =>
      if e.isNetworkClass then
        (.error (.tokenAcquisitionError .tokenAcquisitionFailed (some e)),
          st1, attempt + 1)
      else if e.isStructured then
        (.error e, st1, attempt + 1)
      else
        (.error (.tokenAcquisitionError .tokenAcquisitionFailed (some e)),
          st1, attempt + 1)
    | (.error e, st1), rem + 1 =>
      if e.isNetworkClass then
        tm.legacyFrom now provider validate (attempt + 1) (rem + 1) st1
      else if e.isStructured then
        (.error e, st1, attempt + 1)
      else
        (.error (.tokenAcquisitionError .tokenAcquisitionFailed (some e)),
          st1, attempt + 1)

/-- `_acquire_with_legacy_retry` (max_retries =
MAX_TOKEN_ACQUISITION_RETRIES = 3). -/
def TokenManager.acquire_with_legacy_retry (tm : TokenManager) (st : TMState)
    (now : Int) (provider : Nat → Except PErr OAuthToken)
    (validate : String → Bool) : Except PErr String × TMState × Nat :=
  tm.legacyFrom now provider validate 0 MAX_TOKEN_ACQUISITION_RETRIES st

/-- The `RetryConfig.execute(attempt_acquire)` loop inside
`_acquire_with_retry_config`, with the `should_retry` lambda installed by
`_create_retry_config` (`not isinstance(e, TokenAcquisitionError)`) inlined,
threading the manager state through attempts. Entered at loop index
`attempt` with `remaining = RetryMaxAttempts - attempt` iterations left
(the Python guard `attempt >= max_attempts - 1` is `remaining = 1`); `last`
is the Python `last_exception`. -/
def TokenManager.retryFrom (tm : TokenManager) (now : Int)
    (provider : Nat → Except PErr OAuthToken) (validate : String → Bool) :
    Nat → Nat → TMState → Option PErr → Except PErr String × TMState × Nat
  | attempt, 0, st, last => (.error (.retryExhausted last), st, attempt)
  | attempt, _remaining + 1, st, _last =>
    match tm.acquireAttemptBody st now (provider attempt) validate,
        _remaining with
    | (.ok t, st1), _ => (.ok t, st1, attempt + 1)
    | (.error e, st1), 0 =>
      if e.isTokenAcquisitionError then (.error e, st1, attempt + 1)
      else (.error (.retryExhausted (some e)), st1, attempt + 1)
    | (.error e, st1), rem + 1 =>
      if e.isTokenAcquisitionError then (.error e, st1, attempt + 1)
      else
        tm.retryFrom now provider validate (attempt + 1) (rem + 1) st1
          (some e)

/-- `_acquire_with_retry_config`: run the retry loop, re-raise
TokenAcquisitionError / NetworkError as-is, and wrap any other exception
(including RetryExhaustedError) into
TokenAcquisitionError(TOKEN_ACQUISITION_FAILED) `from e`. `rcN` is the
configured RetryMaxAttempts. -/
def TokenManager.acquire_with_retry_config (tm : TokenManager) (rcN : Nat)
    (st : TMState) (now : Int) (provider : Nat → Except PErr OAuthToken)
    (validate : String → Bool) : Except PErr String × TMState × Nat :=
  match tm.retryFrom now provider validate 0 rcN st none with
  | (.ok t, st1, n) => (.ok t, st1, n)
  | (.error e, st1, n) =>
    if e.isStructured then
      (.error e, st1, n)
    else
      (.error (.tokenAcquisitionError .tokenAcquisitionFailed (some e)),
        st1, n)

/-- The inner `acquire_operation` of `_acquire_token`: configured retry if
present, else the legacy retry. -/
def TokenManager.acquire_operation (tm : TokenManager) (st : TMState)
    (now : Int) (provider : Nat → Except PErr OAuthToken)
    (validate : String → Bool) : Except PErr String × TMState × Nat :=
  match tm.retry_settings with
  | some s => tm.acquire_with_retry_config s.1 st now provider validate
  | none => tm.acquire_with_legacy_retry st now provider validate

/-- `acquire_operation` run under the breaker (the post-check phase of
`CircuitBreaker.call`): success feeds `_on_success`, a raised exception
feeds `_on_failure` when `tmExceptionFilter` accepts it, and the exception
re-raises either way. -/
def TokenManager.acquireWrapped (tm : TokenManager) (cb : CircuitBreaker)
    (st : TMState) (now : Int) (provider : Nat → Except PErr OAuthToken)
    (validate : String → Bool) : Except PErr String × TMState × Nat :=
  match tm.acquire_operation st now provider validate with
  | (.ok t, st1, n) => (.ok t, { st1 with breaker := st1.breaker.onSuccess },
      n)
  | (.error e, st1, n) =>
    (.error e,
      { st1 with
        breaker :=
          if tmExceptionFilter e then cb.onFailure st1.breaker now
          else st1.breaker },
      n)

/-- `_acquire_token`: apply `CircuitBreaker.call` around
`acquire_operation` when a breaker is configured (an OPEN breaker either
rejects with CircuitBreakerError before any provider call or moves to
HALF_OPEN and proceeds); the metrics recording does not affect state. -/
def TokenManager.acquire_token (tm : TokenManager) (st : TMState) (now : Int)
    (provider : Nat → Except PErr OAuthToken) (validate : String → Bool) :
    Except PErr String × TMState × Nat :=
  match tm.breaker_settings with
  | none => tm.acquire_operation st now provider validate
  | some cb =>
    match st.breaker.state with
    | .opened =>
      if cb.shouldAttemptReset st.breaker now then
        tm.acquireWrapped cb
          { st with breaker := { st.breaker with state := .halfOpen } }
          now provider validate
      else
        (.error .circuitBreakerError, st, 0)
    | _ => tm.acquireWrapped cb st now provider validate

/-- `get_token`: under the lock, a validity hit decrypts and returns the
cached token with no provider invocation; a miss runs `_acquire_token`. -/
def TokenManager.get_token (tm : TokenManager) (st : TMState) (now : Int)
    (provider : Nat → Except PErr OAuthToken) (validate : String → Bool) :
    Except PErr String × TMState × Nat :=
  if tm.is_token_valid st now then
    match tm.get_cached_token st with
    | some t => (.ok t, st, 0)
    | none => (.error .assertionError, st, 0)
  else
    tm.acquire_token st now provider validate

/-! ## Theorems -/

/-- C5: for every RetryConfig with max_attempts = 3 and FixedBackoff(0),
executing an operation that fails on every invocation with a retryable
error invokes the operation exactly 3 times and raises RetryExhaustedError
whose cause is the error of the final (third) invocation (and sleeps the
fixed zero delay between attempts). -/
theorem retry_three_attempts_exhausted {ε α : Type} (sr : ε → Bool)
    (op : Nat → Except ε α) (f : Nat → ε)
    (hop : ∀ k, op k = .error (f k)) (hr : ∀ k, sr (f k) = true) :
    RetryConfig.execute ⟨3, FixedBackoff 0, sr⟩ op =
      (3, [0, 0], .exhausted (some (f 2))) := by
  simp [RetryConfig.execute, RetryConfig.executeFrom, hop 0, hop 1, hop 2,
    hr, FixedBackoff]

/-- Witness for C5 at a concrete always-failing operation. -/
theorem retry_three_attempts_exhausted_witness :
    RetryConfig.execute (ε := Nat) (α := Nat)
      ⟨3, FixedBackoff 0, fun _ => true⟩ (fun k => .error k) =
      (3, [0, 0], .exhausted (some 2)) :=
  retry_three_attempts_exhausted (fun _ => true) (fun k => .error k)
    (fun k => k) (fun _ => rfl) (fun _ => rfl)

/-- C6: for every RetryConfig, if the first invocation raises an error that
`should_retry` rejects, `execute` invokes the operation exactly once and
propagates that error itself, with no delay slept, however many attempts
remain. -/
theorem retry_nonretryable_single_call {ε α : Type} (rc : RetryConfig ε)
    (op : Nat → Except ε α) (e : ε) (hmax : 1 ≤ rc.max_attempts)
    (hop : op 0 = .error e) (hsr : rc.should_retry e = false) :
    rc.execute op = (1, [], .raised e) := by
  obtain ⟨n, hn⟩ : ∃ n, rc.max_attempts = n + 1 :=
    ⟨rc.max_attempts - 1, by omega⟩
  unfold RetryConfig.execute
  rw [hn]
  cases n <;> simp [RetryConfig.executeFrom, hop, hsr]

/-- Witness for C6: a non-retryable first failure with four attempts
remaining still yields one call and the original error. -/
theorem retry_nonretryable_single_call_witness :
    RetryConfig.execute (ε := Nat) (α := Nat)
      ⟨5, FixedBackoff 0, fun k => decide (k ≠ 0)⟩ (fun _ => .error 0) =
      (1, [], .raised 0) :=
  retry_nonretryable_single_call _ (fun _ => .error 0) 0 (by decide) rfl
    (by decide)

/-- C8: decrypt inverts encrypt on the same vault instance for any
(non-empty) string, and a vault never decrypts ciphertext produced by a
different vault instance: it fails with a decryption error instead. -/
theorem vault_roundtrip_and_isolation :
    (∀ (m : SecretsManager) (s : String), s ≠ "" →
      m.decrypt_secret (m.encrypt_secret s) = some s)
    ∧ (∀ (m1 m2 : SecretsManager) (s : String), m1 ≠ m2 →
      m2.decrypt_secret (m1.encrypt_secret s) = none) := by
  constructor
  · intro m s _
    simp [SecretsManager.encrypt_secret, SecretsManager.decrypt_secret]
  · intro m1 m2 s hne
    have hk : m1.key ≠ m2.key := by
      intro h
      exact hne (by cases m1; cases m2; simp_all)
    simp [SecretsManager.encrypt_secret, SecretsManager.decrypt_secret, hk]

/-- Witness for C8 at concrete vaults and a concrete secret. -/
theorem vault_roundtrip_and_isolation_witness :
    SecretsManager.decrypt_secret ⟨0⟩ (SecretsManager.encrypt_secret ⟨0⟩
      "client-secret-1") = some "client-secret-1"
    ∧ SecretsManager.decrypt_secret ⟨1⟩ (SecretsManager.encrypt_secret ⟨0⟩
      "client-secret-1") = none :=
  ⟨vault_roundtrip_and_isolation.1 ⟨0⟩ "client-secret-1" (by decide),
    vault_roundtrip_and_isolation.2 ⟨0⟩ ⟨1⟩ "client-secret-1" (by decide)⟩

/-- C9 counterexample: a well-formed endpoint containing neither the
Microsoft login domain nor the Google OAuth domain is auto-detected as
"keycloak", not "generic" (the realm-path heuristic fires first). -/
theorem auto_detect_not_generic_counterexample :
    strContains "https://idp.example.com/auth/realms/main/token"
      "login.microsoftonline.com" = false
    ∧ strContains "https://idp.example.com/auth/realms/main/token"
      "oauth2.googleapis.com" = false
    ∧ auto_detect "https://idp.example.com/auth/realms/main/token" =
      "keycloak"
    ∧ auto_detect "https://idp.example.com/auth/realms/main/token" ≠
      "generic" := by
  refine ⟨by decide, by decide, by decide, by decide⟩

/-- C9 amended: auto-detection returns "azure" when the endpoint contains
the Microsoft login domain; otherwise "google" when it contains the Google
OAuth domain; otherwise "aws" when it contains "amazonaws.com" or
(lowercased) "aws"; otherwise "keycloak" when it contains "/auth/realms/";
and "generic" only for endpoints containing none of these. -/
theorem auto_detect_characterization (te : String) :
    (strContains te "login.microsoftonline.com" = true →
      auto_detect te = "azure")
    ∧ (strContains te "login.microsoftonline.com" = false →
      strContains te "oauth2.googleapis.com" = true →
      auto_detect te = "google")
    ∧ (strContains te "login.microsoftonline.com" = false →
      strContains te "oauth2.googleapis.com" = false →
      (strContains te "amazonaws.com" = true
        ∨ strContains (strLower te) "aws" = true) →
      auto_detect te = "aws")
    ∧ (strContains te "login.microsoftonline.com" = false →
      strContains te "oauth2.googleapis.com" = false →
      strContains te "amazonaws.com" = false →
      strContains (strLower te) "aws" = false →
      strContains te "/auth/realms/" = true →
      auto_detect te = "keycloak")
    ∧ (strContains te "login.microsoftonline.com" = false →
      strContains te "oauth2.googleapis.com" = false →
      strContains te "amazonaws.com" = false →
      strContains (strLower te) "aws" = false →
      strContains te "/auth/realms/" = false →
      auto_detect te = "generic") := by
  refine ⟨?_, ?_, ?_, ?_, ?_⟩ <;> intros <;> simp_all [auto_detect]

/-- Witness for C9 amended, covering the azure and generic branches at
concrete endpoints. -/
theorem auto_detect_characterization_witness :
    auto_detect "https://login.microsoftonline.com/tenant/oauth2/token" =
      "azure"
    ∧ auto_detect "https://idp.example.org/oauth2/token" = "generic" :=
  ⟨(auto_detect_characterization _).1 (by decide),
    (auto_detect_characterization _).2.2.2.2 (by decide) (by decide)
      (by decide) (by decide) (by decide)⟩

/-- Qualifying failures fed to a CLOSED breaker raise the counter by one
per call and open the circuit exactly when the counter reaches the
threshold. -/
theorem cb_closed_failures_open {ε α : Type} (cb : CircuitBreaker)
    (filter : ε → Bool) (e : ε) (he : filter e = true) :
    ∀ (ts : List Int) (d : CBData), d.state = .closed →
      d.failure_count + ts.length = cb.failure_threshold → ts ≠ [] →
      (cb.callMany (α := α) filter d
        (ts.map fun t => (t, .error e))).state = .opened
      ∧ (cb.callMany (α := α) filter d
        (ts.map fun t => (t, .error e))).failure_count
        = cb.failure_threshold := by
  intro ts
  induction ts with
  | nil => intro d _ _ hne; exact absurd rfl hne
  | cons t rest ih =>
    intro d hst hcount _
    cases rest with
    | nil =>
      have hth : cb.failure_threshold ≤ d.failure_count + 1 := by
        simp at hcount; omega
      simp [CircuitBreaker.callMany, CircuitBreaker.call, hst,
        CircuitBreaker.runCall, he, CircuitBreaker.onFailure, hth]
      simp at hcount
      omega
    | cons t2 rest2 =>
      have hlt : ¬ cb.failure_threshold ≤ d.failure_count + 1 := by
        simp at hcount; omega
      have hstep :
          (cb.call (α := α) filter d t (.error e)).2 =
            ⟨.closed, d.failure_count + 1, some t⟩ := by
        simp [CircuitBreaker.call, hst, CircuitBreaker.runCall, he,
          CircuitBreaker.onFailure, hlt]
      have := ih ⟨.closed, d.failure_count + 1, some t⟩ rfl
        (by simp at hcount ⊢; omega) (by simp)
      simpa [CircuitBreaker.callMany, hstep] using this

/-- C4: with failure threshold N, N consecutive qualifying failures move a
fresh CLOSED breaker to OPEN; while OPEN, a call strictly before `timeout`
seconds have elapsed since the last failure is rejected (CircuitBreakerError)
without invoking the wrapped operation and without changing state; a call
once `timeout` seconds have elapsed transitions to HALF_OPEN and invokes
the operation exactly once; a success from HALF_OPEN yields CLOSED with the
failure counter reset to 0. -/
theorem circuit_breaker_state_machine {ε α : Type} (cb : CircuitBreaker)
    (filter : ε → Bool) :
    (∀ (e : ε) (ts : List Int), filter e = true →
      ts.length = cb.failure_threshold → ts ≠ [] →
      (cb.callMany (α := α) filter CBData.initial
        (ts.map fun t => (t, .error e))).state = .opened)
    ∧ (∀ (d : CBData) (t now : Int) (op : Except ε α), d.state = .opened →
      d.last_failure_time = some t → now - t < cb.timeout →
      cb.call filter d now op = (.rejected, d))
    ∧ (∀ (d : CBData) (t now : Int) (op : Except ε α), d.state = .opened →
      d.last_failure_time = some t → cb.timeout ≤ now - t →
      cb.call filter d now op =
        cb.runCall filter { d with state := .halfOpen } now op
      ∧ (cb.call filter d now op).1 = .executed op)
    ∧ (∀ (d : CBData) (now : Int) (a : α), d.state = .halfOpen →
      cb.call filter d now (.ok a) =
        (.executed (.ok a), ⟨.closed, 0, d.last_failure_time⟩)) := by
  refine ⟨?_, ?_, ?_, ?_⟩
  · intro e ts he hlen hne
    exact (cb_closed_failures_open cb filter e he ts CBData.initial rfl
      (by simpa [CBData.initial] using hlen) hne).1
  · intro d t now op hst hlast hlt
    have : cb.shouldAttemptReset d now = false := by
      simp [CircuitBreaker.shouldAttemptReset, hlast]; omega
    simp [CircuitBreaker.call, hst, this]
  · intro d t now op hst hlast hge
    have hres : cb.shouldAttemptReset d now = true := by
      simp [CircuitBreaker.shouldAttemptReset, hlast]; omega
    constructor
    · simp [CircuitBreaker.call, hst, hres]
    · cases op <;> simp [CircuitBreaker.call, hst, hres,
        CircuitBreaker.runCall]
  · intro d now a hst
    simp [CircuitBreaker.call, hst, CircuitBreaker.runCall,
      CBData.onSuccess]

/-- Witness for C4 at a breaker with threshold 2 and timeout 5: two
failures at instants 0 and 1 open it; a call at instant 3 is rejected
unchanged; a call at instant 6 executes the operation; a HALF_OPEN success
closes with counter 0. -/
theorem circuit_breaker_state_machine_witness :
    (CircuitBreaker.callMany (ε := Unit) (α := Nat) ⟨2, 5⟩ (fun _ => true)
      CBData.initial ([0, 1].map fun t => (t, .error ()))).state = .opened
    ∧ CircuitBreaker.call (ε := Unit) (α := Nat) ⟨2, 5⟩ (fun _ => true)
      ⟨.opened, 2, some 1⟩ 3 (.ok 7) = (.rejected, ⟨.opened, 2, some 1⟩)
    ∧ (CircuitBreaker.call (ε := Unit) (α := Nat) ⟨2, 5⟩ (fun _ => true)
      ⟨.opened, 2, some 1⟩ 6 (.ok 7)).1 = .executed (.ok 7)
    ∧ CircuitBreaker.call (ε := Unit) (α := Nat) ⟨2, 5⟩ (fun _ => true)
      ⟨.halfOpen, 2, some 1⟩ 6 (.ok 7) =
      (.executed (.ok 7), ⟨.closed, 0, some 1⟩) :=
  ⟨(circuit_breaker_state_machine ⟨2, 5⟩ (fun _ => true)).1 () [0, 1] rfl
      rfl (by decide),
    (circuit_breaker_state_machine ⟨2, 5⟩ (fun _ => true)).2.1
      ⟨.opened, 2, some 1⟩ 1 3 (.ok 7) rfl rfl (by decide),
    ((circuit_breaker_state_machine ⟨2, 5⟩ (fun _ => true)).2.2.1
      ⟨.opened, 2, some 1⟩ 1 6 (.ok 7) rfl rfl (by decide)).2,
    (circuit_breaker_state_machine ⟨2, 5⟩ (fun _ => true)).2.2.2
      ⟨.halfOpen, 2, some 1⟩ 6 7 rfl⟩

/-- The legacy retry loop always invokes the provider at least once when
entered with at least one attempt remaining. -/
theorem legacyFrom_min_calls (tm : TokenManager) (now : Int)
    (provider : Nat → Except PErr OAuthToken) (validate : String → Bool) :
    ∀ (rem attempt : Nat) (st : TMState),
      attempt <
        (tm.legacyFrom now provider validate attempt (rem + 1) st).2.2 := by
  intro rem
  induction rem with
  | zero =>
    intro attempt st
    rcases hb : tm.acquireAttemptBody st now (provider attempt) validate
      with ⟨res, st1⟩
    unfold TokenManager.legacyFrom
    rw [hb]
    cases res with
    | ok t => exact Nat.lt_succ_self attempt
    | error e =>
      dsimp only
      cases hnc : e.isNetworkClass
      · cases hstr : e.isStructured
        · exact Nat.lt_succ_self attempt
        · exact Nat.lt_succ_self attempt
      · exact Nat.lt_succ_self attempt
  | succ r ih =>
    intro attempt st
    rcases hb : tm.acquireAttemptBody st now (provider attempt) validate
      with ⟨res, st1⟩
    unfold TokenManager.legacyFrom
    rw [hb]
    cases res with
    | ok t => exact Nat.lt_succ_self attempt
    | error e =>
      dsimp only
      cases hnc : e.isNetworkClass
      · cases hstr : e.isStructured
        · exact Nat.lt_succ_self attempt
        · exact Nat.lt_succ_self attempt
      · exact Nat.lt_of_succ_lt (ih (attempt + 1) st1)

/-- When every provider invocation raises, the legacy retry loop leaves the
manager state untouched and raises. -/
theorem legacyFrom_provider_failure (tm : TokenManager) (now : Int)
    (provider : Nat → Except PErr OAuthToken) (validate : String → Bool)
    (hp : ∀ k, ∃ e, provider k = .error e) :
    ∀ (rem attempt : Nat) (st : TMState),
      ∃ e n, tm.legacyFrom now provider validate attempt rem st =
        (.error e, st, n) := by
  intro rem
  induction rem with
  | zero => intro attempt st; exact ⟨_, _, rfl⟩
  | succ r ih =>
    intro attempt st
    obtain ⟨e, he⟩ := hp attempt
    have hbody : tm.acquireAttemptBody st now (provider attempt) validate =
        (.error e, st) := by
      simp [TokenManager.acquireAttemptBody, he]
    cases r with
    | zero =>
      unfold TokenManager.legacyFrom
      rw [hbody]
      dsimp only
      cases hnc : e.isNetworkClass
      · cases hstr : e.isStructured
        · exact ⟨_, _, rfl⟩
        · exact ⟨_, _, rfl⟩
      · exact ⟨_, _, rfl⟩
    | succ r2 =>
      unfold TokenManager.legacyFrom
      rw [hbody]
      dsimp only
      cases hnc : e.isNetworkClass
      · cases hstr : e.isStructured
        · exact ⟨_, _, rfl⟩
        · exact ⟨_, _, rfl⟩
      · exact ih (attempt + 1) st

/-- When every provider invocation raises, the configured retry loop leaves
the manager state untouched and raises. -/
theorem retryFrom_provider_failure (tm : TokenManager) (now : Int)
    (provider : Nat → Except PErr OAuthToken) (validate : String → Bool)
    (hp : ∀ k, ∃ e, provider k = .error e) :
    ∀ (rem attempt : Nat) (st : TMState) (last : Option PErr),
      ∃ e n, tm.retryFrom now provider validate attempt rem st last =
        (.error e, st, n) := by
  intro rem
  induction rem with
  | zero => intro attempt st last; exact ⟨_, _, rfl⟩
  | succ r ih =>
    intro attempt st last
    obtain ⟨e, he⟩ := hp attempt
    have hbody : tm.acquireAttemptBody st now (provider attempt) validate =
        (.error e, st) := by
      simp [TokenManager.acquireAttemptBody, he]
    cases r with
    | zero =>
      unfold TokenManager.retryFrom
      rw [hbody]
      dsimp only
      cases hta : e.isTokenAcquisitionError
      · exact ⟨_, _, rfl⟩
      · exact ⟨_, _, rfl⟩
    | succ r2 =>
      unfold TokenManager.retryFrom
      rw [hbody]
      dsimp only
      cases hta : e.isTokenAcquisitionError
      · exact ih (attempt + 1) st (some e)
      · exact ⟨_, _, rfl⟩

/-- One successful, validating provider call: the legacy loop caches the
token with expiry `now + expires_in` and returns its decryption. -/
theorem legacyFrom_first_success (tm : TokenManager) (now : Int)
    (provider : Nat → Except PErr OAuthToken) (validate : String → Bool)
    (rem attempt : Nat) (st : TMState) (tok : OAuthToken)
    (hp : provider attempt = .ok tok)
    (hv : validate tok.access_token = true) :
    tm.legacyFrom now provider validate attempt (rem + 1) st =
      (.ok tok.access_token,
        { st with
          encrypted_cached_token :=
            some (tm.secrets.encrypt_secret tok.access_token)
          token_expiry := some (now + tok.expires_in) }, attempt + 1) := by
  have hbody : tm.acquireAttemptBody st now (provider attempt) validate =
      (.ok tok.access_token,
        { st with
          encrypted_cached_token :=
            some (tm.secrets.encrypt_secret tok.access_token)
          token_expiry := some (now + tok.expires_in) }) := by
    simp [TokenManager.acquireAttemptBody, hp, hv,
      TokenManager.get_cached_token, SecretsManager.encrypt_secret,
      SecretsManager.decrypt_secret]
  unfold TokenManager.legacyFrom
  rw [hbody]

/-- A provider call that succeeds but fails validation: the legacy loop has
already cached the unvalidated token and raises the validation
TokenAcquisitionError immediately (it is not network-class). -/
theorem legacyFrom_validation_failure (tm : TokenManager) (now : Int)
    (provider : Nat → Except PErr OAuthToken) (validate : String → Bool)
    (rem attempt : Nat) (st : TMState) (tok : OAuthToken)
    (hp : provider attempt = .ok tok)
    (hv : validate tok.access_token = false) :
    tm.legacyFrom now provider validate attempt (rem + 1) st =
      (.error (.tokenAcquisitionError .tokenValidationFailed none),
        { st with
          encrypted_cached_token :=
            some (tm.secrets.encrypt_secret tok.access_token)
          token_expiry := some (now + tok.expires_in) }, attempt + 1) := by
  have hbody : tm.acquireAttemptBody st now (provider attempt) validate =
      (.error (.tokenAcquisitionError .tokenValidationFailed none),
        { st with
          encrypted_cached_token :=
            some (tm.secrets.encrypt_secret tok.access_token)
          token_expiry := some (now + tok.expires_in) }) := by
    simp [TokenManager.acquireAttemptBody, hp, hv]
  cases rem with
  | zero =>
    unfold TokenManager.legacyFrom
    rw [hbody]
    exact rfl
  | succ r =>
    unfold TokenManager.legacyFrom
    rw [hbody]
    exact rfl

/-- A provider call that succeeds but fails validation: the configured
retry loop has already cached the unvalidated token and raises the
validation TokenAcquisitionError immediately (`should_retry` rejects
TokenAcquisitionError). -/
theorem retryFrom_validation_failure (tm : TokenManager) (now : Int)
    (provider : Nat → Except PErr OAuthToken) (validate : String → Bool)
    (rem attempt : Nat) (st : TMState) (last : Option PErr)
    (tok : OAuthToken) (hp : provider attempt = .ok tok)
    (hv : validate tok.access_token = false) :
    tm.retryFrom now provider validate attempt (rem + 1) st last =
      (.error (.tokenAcquisitionError .tokenValidationFailed none),
        { st with
          encrypted_cached_token :=
            some (tm.secrets.encrypt_secret tok.access_token)
          token_expiry := some (now + tok.expires_in) }, attempt + 1) := by
  have hbody : tm.acquireAttemptBody st now (provider attempt) validate =
      (.error (.tokenAcquisitionError .tokenValidationFailed none),
        { st with
          encrypted_cached_token :=
            some (tm.secrets.encrypt_secret tok.access_token)
          token_expiry := some (now + tok.expires_in) }) := by
    simp [TokenManager.acquireAttemptBody, hp, hv]
  cases rem with
  | zero =>
    unfold TokenManager.retryFrom
    rw [hbody]
    exact rfl
  | succ r =>
    unfold TokenManager.retryFrom
    rw [hbody]
    exact rfl

/-- When every provider invocation raises, `acquire_operation` (either
retry path) leaves the manager state untouched and raises. -/
theorem acquire_operation_provider_failure (tm : TokenManager)
    (now : Int) (provider : Nat → Except PErr OAuthToken)
    (validate : String → Bool) (hp : ∀ k, ∃ e, provider k = .error e)
    (st : TMState) :
    ∃ e n, tm.acquire_operation st now provider validate =
      (.error e, st, n) := by
  cases hrs : tm.retry_settings with
  | none =>
    simp only [TokenManager.acquire_operation, hrs]
    exact legacyFrom_provider_failure tm now provider validate hp
      MAX_TOKEN_ACQUISITION_RETRIES 0 st
  | some p =>
    obtain ⟨e, n, h⟩ := retryFrom_provider_failure tm now provider
      validate hp p.1 0 st none
    simp only [TokenManager.acquire_operation, hrs,
      TokenManager.acquire_with_retry_config, h]
    split <;> exact ⟨_, _, rfl⟩

/-- When every provider invocation raises, the whole acquisition pipeline
(breaker and either retry path included) leaves the cached token and the
expiry untouched and raises. -/
theorem acquire_token_provider_failure (tm : TokenManager) (st : TMState)
    (now : Int) (provider : Nat → Except PErr OAuthToken)
    (validate : String → Bool) (hp : ∀ k, ∃ e, provider k = .error e) :
    (tm.acquire_token st now provider validate).2.1.encrypted_cached_token
      = st.encrypted_cached_token
    ∧ (tm.acquire_token st now provider validate).2.1.token_expiry
      = st.token_expiry
    ∧ ∃ e, (tm.acquire_token st now provider validate).1 = .error e := by
  have hwr : ∀ (cb : CircuitBreaker) (st' : TMState),
      (tm.acquireWrapped cb st' now provider
        validate).2.1.encrypted_cached_token
        = st'.encrypted_cached_token
      ∧ (tm.acquireWrapped cb st' now provider validate).2.1.token_expiry
        = st'.token_expiry
      ∧ ∃ e, (tm.acquireWrapped cb st' now provider validate).1 =
        .error e := by
    intro cb st'
    obtain ⟨e, n, h⟩ := acquire_operation_provider_failure tm now provider
      validate hp st'
    simp [TokenManager.acquireWrapped, h]
  cases hbs : tm.breaker_settings with
  | none =>
    obtain ⟨e, n, h⟩ := acquire_operation_provider_failure tm now provider
      validate hp st
    simp [TokenManager.acquire_token, hbs, h]
  | some cb =>
    cases hst : st.breaker.state with
    | closed =>
      have h2 := hwr cb st
      simp only [TokenManager.acquire_token, hbs, hst]
      exact h2
    | halfOpen =>
      have h2 := hwr cb st
      simp only [TokenManager.acquire_token, hbs, hst]
      exact h2
    | opened =>
      simp only [TokenManager.acquire_token, hbs, hst]
      split
      · exact hwr cb
          { st with breaker := { st.breaker with state := .halfOpen } }
      · exact ⟨rfl, rfl, _, rfl⟩

/-- C1 counterexample: with a cached token "old" (expiry 100, already
stale at instant 0), an acquisition whose provider succeeds with token
"new" (lifetime 50) but whose validation returns false raises the
validation error, yet the cache now holds the unvalidated "new" token and
its expiry: the failed acquisition touched the cache. -/
theorem get_token_validation_failure_counterexample :
    TokenManager.get_token ⟨300, ⟨0⟩, none, none⟩
      ⟨some ⟨0, "old"⟩, some 100, CBData.initial⟩ 0
      (fun _ => .ok ⟨"new", 50, "Bearer", none, none⟩) (fun _ => false) =
      (.error (.tokenAcquisitionError .tokenValidationFailed none),
        ⟨some ⟨0, "new"⟩, some 50, CBData.initial⟩, 1)
    ∧ (TokenManager.get_token ⟨300, ⟨0⟩, none, none⟩
      ⟨some ⟨0, "old"⟩, some 100, CBData.initial⟩ 0
      (fun _ => .ok ⟨"new", 50, "Bearer", none, none⟩)
      (fun _ => false)).2.1.encrypted_cached_token ≠ some ⟨0, "old"⟩
    ∧ (TokenManager.get_token ⟨300, ⟨0⟩, none, none⟩
      ⟨some ⟨0, "old"⟩, some 100, CBData.initial⟩ 0
      (fun _ => .ok ⟨"new", 50, "Bearer", none, none⟩)
      (fun _ => false)).2.1.token_expiry ≠ some 100 :=
  ⟨rfl, by decide, by decide⟩

/-- C1 amended: when an acquisition fails because the provider itself
raises on every invocation, the cached token and its expiry are unchanged
(part 1, any breaker / retry configuration). But when the provider returns
a token that fails `validate_token`, the pipeline has already overwritten
the cache before raising: after the failed call the cache holds the new
unvalidated token and its expiry `now + expires_in` (part 2, stated for a
breaker that is absent or CLOSED and a configured retry allowing at least
one attempt). -/
theorem get_token_failure_cache_effects (tm : TokenManager) (st : TMState)
    (now : Int) (provider : Nat → Except PErr OAuthToken)
    (validate : String → Bool) :
    ((∀ k, ∃ e, provider k = .error e) →
      (tm.get_token st now provider validate).2.1.encrypted_cached_token =
        st.encrypted_cached_token
      ∧ (tm.get_token st now provider validate).2.1.token_expiry =
        st.token_expiry)
    ∧ (∀ tok : OAuthToken, st.breaker.state = .closed →
      (tm.retry_settings = none ∨
        ∃ p, tm.retry_settings = some p ∧ 1 ≤ p.1) →
      tm.is_token_valid st now = false →
      provider 0 = .ok tok → validate tok.access_token = false →
      (tm.get_token st now provider validate).1 =
        .error (.tokenAcquisitionError .tokenValidationFailed none)
      ∧ (tm.get_token st now provider validate).2.1.encrypted_cached_token =
        some (tm.secrets.encrypt_secret tok.access_token)
      ∧ (tm.get_token st now provider validate).2.1.token_expiry =
        some (now + tok.expires_in)) := by
  constructor
  · intro hp
    obtain ⟨h1, h2, _⟩ := acquire_token_provider_failure tm st now provider
      validate hp
    by_cases hval : tm.is_token_valid st now = true
    · cases hc : tm.get_cached_token st <;>
        simp [TokenManager.get_token, hval, hc]
    · have hv2 : tm.is_token_valid st now = false := by
        simpa using hval
      simp only [TokenManager.get_token, hv2, Bool.false_eq_true,
        if_false]
      exact ⟨h1, h2⟩
  · intro tok hstc hro hval hp hv
    have hOp : tm.acquire_operation st now provider validate =
        (.error (.tokenAcquisitionError .tokenValidationFailed none),
          { st with
            encrypted_cached_token :=
              some (tm.secrets.encrypt_secret tok.access_token)
            token_expiry := some (now + tok.expires_in) }, 1) := by
      rcases hro with hnone | ⟨p, hps, hp1⟩
      · have hleg := legacyFrom_validation_failure tm now provider validate
          2 0 st tok hp hv
        simp only [TokenManager.acquire_operation, hnone,
          TokenManager.acquire_with_legacy_retry]
        exact hleg
      · obtain ⟨m, hm⟩ : ∃ m, p.1 = m + 1 := ⟨p.1 - 1, by omega⟩
        have hret := retryFrom_validation_failure tm now provider validate
          m 0 st none tok hp hv
        simp [TokenManager.acquire_operation, hps,
          TokenManager.acquire_with_retry_config, hm, hret,
          PErr.isStructured]
    cases hbs : tm.breaker_settings with
    | none =>
      simp [TokenManager.get_token, hval, TokenManager.acquire_token, hbs,
        hOp]
    | some cb =>
      simp [TokenManager.get_token, hval, TokenManager.acquire_token, hbs,
        hstc, TokenManager.acquireWrapped, hOp]

/-- Witness for C1 amended: part 1 at a provider that always times out
(cache left holding "old"/100), part 2 at a provider returning "new" with
lifetime 50 that fails validation (cache left holding "new"/50). -/
theorem get_token_failure_cache_effects_witness :
    ((TokenManager.get_token ⟨300, ⟨0⟩, none, none⟩
      ⟨some ⟨0, "old"⟩, some 100, CBData.initial⟩ 0
      (fun _ => .error .timeoutExc)
      (fun _ => true)).2.1.encrypted_cached_token = some ⟨0, "old"⟩
    ∧ (TokenManager.get_token ⟨300, ⟨0⟩, none, none⟩
      ⟨some ⟨0, "old"⟩, some 100, CBData.initial⟩ 0
      (fun _ => .error .timeoutExc)
      (fun _ => true)).2.1.token_expiry = some 100)
    ∧ ((TokenManager.get_token ⟨300, ⟨0⟩, none, none⟩
      ⟨some ⟨0, "old"⟩, some 100, CBData.initial⟩ 0
      (fun _ => .ok ⟨"new", 50, "Bearer", none, none⟩) (fun _ => false)).1 =
      .error (.tokenAcquisitionError .tokenValidationFailed none)
    ∧ (TokenManager.get_token ⟨300, ⟨0⟩, none, none⟩
      ⟨some ⟨0, "old"⟩, some 100, CBData.initial⟩ 0
      (fun _ => .ok ⟨"new", 50, "Bearer", none, none⟩)
      (fun _ => false)).2.1.encrypted_cached_token = some ⟨0, "new"⟩
    ∧ (TokenManager.get_token ⟨300, ⟨0⟩, none, none⟩
      ⟨some ⟨0, "old"⟩, some 100, CBData.initial⟩ 0
      (fun _ => .ok ⟨"new", 50, "Bearer", none, none⟩)
      (fun _ => false)).2.1.token_expiry = some 50) :=
  ⟨(get_token_failure_cache_effects ⟨300, ⟨0⟩, none, none⟩
      ⟨some ⟨0, "old"⟩, some 100, CBData.initial⟩ 0
      (fun _ => .error .timeoutExc) (fun _ => true)).1
      (fun _ => ⟨.timeoutExc, rfl⟩),
    (get_token_failure_cache_effects ⟨300, ⟨0⟩, none, none⟩
      ⟨some ⟨0, "old"⟩, some 100, CBData.initial⟩ 0
      (fun _ => .ok ⟨"new", 50, "Bearer", none, none⟩) (fun _ => false)).2
      ⟨"new", 50, "Bearer", none, none⟩ rfl (Or.inl rfl) rfl rfl rfl⟩

/-- C7: on the legacy fallback path (no configured RetryConfig), part 1:
if every invocation raises a network-class error, the provider is invoked
3 times (MAX_TOKEN_ACQUISITION_RETRIES) and the final error is wrapped into
TokenAcquisitionError `from` the error of the third invocation; part 2: a
TokenAcquisitionError raised on any attempt `j` (after network-class
failures on the earlier attempts) propagates as-is immediately, with
exactly `j + 1` provider invocations and the state unchanged; part 3: a
first-attempt error that is not network-class yields exactly one provider
invocation, whatever it is. -/
theorem legacy_retry_error_classification (tm : TokenManager) (st : TMState)
    (now : Int) (validate : String → Bool) :
    (∀ (provider : Nat → Except PErr OAuthToken) (f : Nat → PErr),
      (∀ k, provider k = .error (f k)) →
      (∀ k, (f k).isNetworkClass = true) →
      tm.acquire_with_legacy_retry st now provider validate =
        (.error (.tokenAcquisitionError .tokenAcquisitionFailed
          (some (f 2))), st, 3))
    ∧ (∀ (provider : Nat → Except PErr OAuthToken) (j : Nat)
      (code : ErrCode) (cause : Option PErr), j < 3 →
      (∀ k, k < j → ∃ e, provider k = .error e ∧ e.isNetworkClass = true) →
      provider j = .error (.tokenAcquisitionError code cause) →
      tm.acquire_with_legacy_retry st now provider validate =
        (.error (.tokenAcquisitionError code cause), st, j + 1))
    ∧ (∀ (provider : Nat → Except PErr OAuthToken) (e : PErr),
      provider 0 = .error e → e.isNetworkClass = false →
      (tm.acquire_with_legacy_retry st now provider validate).2.2 = 1) := by
  refine ⟨?_, ?_, ?_⟩
  · intro provider f hop hnet
    have hb : ∀ k, tm.acquireAttemptBody st now (provider k) validate =
        (.error (f k), st) := fun k => by
      simp [TokenManager.acquireAttemptBody, hop k]
    have s2 : tm.legacyFrom now provider validate 2 (0 + 1) st =
        (.error (.tokenAcquisitionError .tokenAcquisitionFailed
          (some (f 2))), st, 3) := by
      unfold TokenManager.legacyFrom
      rw [hb 2]
      dsimp only
      simp [hnet 2]
    have s1 : tm.legacyFrom now provider validate 1 (1 + 1) st =
        (.error (.tokenAcquisitionError .tokenAcquisitionFailed
          (some (f 2))), st, 3) := by
      unfold TokenManager.legacyFrom
      rw [hb 1]
      dsimp only
      simp only [hnet 1, if_true]
      exact s2
    have s0 : tm.legacyFrom now provider validate 0 (2 + 1) st =
        (.error (.tokenAcquisitionError .tokenAcquisitionFailed
          (some (f 2))), st, 3) := by
      unfold TokenManager.legacyFrom
      rw [hb 0]
      dsimp only
      simp only [hnet 0, if_true]
      exact s1
    exact s0
  · intro provider j code cause hj hpred hpj
    obtain hj0 | hj1 | hj2 : j = 0 ∨ j = 1 ∨ j = 2 := by omega
    · subst hj0
      have hb0 : tm.acquireAttemptBody st now (provider 0) validate =
          (.error (.tokenAcquisitionError code cause), st) := by
        simp [TokenManager.acquireAttemptBody, hpj]
      show tm.legacyFrom now provider validate 0 (2 + 1) st = _
      unfold TokenManager.legacyFrom
      rw [hb0]
      exact rfl
    · subst hj1
      obtain ⟨e0, he0, hn0⟩ := hpred 0 (by omega)
      have hb0 : tm.acquireAttemptBody st now (provider 0) validate =
          (.error e0, st) := by
        simp [TokenManager.acquireAttemptBody, he0]
      have hb1 : tm.acquireAttemptBody st now (provider 1) validate =
          (.error (.tokenAcquisitionError code cause), st) := by
        simp [TokenManager.acquireAttemptBody, hpj]
      have s1 : tm.legacyFrom now provider validate 1 (1 + 1) st =
          (.error (.tokenAcquisitionError code cause), st, 2) := by
        unfold TokenManager.legacyFrom
        rw [hb1]
        exact rfl
      show tm.legacyFrom now provider validate 0 (2 + 1) st = _
      unfold TokenManager.legacyFrom
      rw [hb0]
      dsimp only
      simp only [hn0, if_true]
      exact s1
    · subst hj2
      obtain ⟨e0, he0, hn0⟩ := hpred 0 (by omega)
      obtain ⟨e1, he1, hn1⟩ := hpred 1 (by omega)
      have hb0 : tm.acquireAttemptBody st now (provider 0) validate =
          (.error e0, st) := by
        simp [TokenManager.acquireAttemptBody, he0]
      have hb1 : tm.acquireAttemptBody st now (provider 1) validate =
          (.error e1, st) := by
        simp [TokenManager.acquireAttemptBody, he1]
      have hb2 : tm.acquireAttemptBody st now (provider 2) validate =
          (.error (.tokenAcquisitionError code cause), st) := by
        simp [TokenManager.acquireAttemptBody, hpj]
      have s2 : tm.legacyFrom now provider validate 2 (0 + 1) st =
          (.error (.tokenAcquisitionError code cause), st, 3) := by
        unfold TokenManager.legacyFrom
        rw [hb2]
        exact rfl
      have s1 : tm.legacyFrom now provider validate 1 (1 + 1) st =
          (.error (.tokenAcquisitionError code cause), st, 3) := by
        unfold TokenManager.legacyFrom
        rw [hb1]
        dsimp only
        simp only [hn1, if_true]
        exact s2
      show tm.legacyFrom now provider validate 0 (2 + 1) st = _
      unfold TokenManager.legacyFrom
      rw [hb0]
      dsimp only
      simp only [hn0, if_true]
      exact s1
  · intro provider e hp0 hne
    have hb0 : tm.acquireAttemptBody st now (provider 0) validate =
        (.error e, st) := by
      simp [TokenManager.acquireAttemptBody, hp0]
    show (tm.legacyFrom now provider validate 0 (2 + 1) st).2.2 = 1
    unfold TokenManager.legacyFrom
    rw [hb0]
    dsimp only
    simp only [hne, Bool.false_eq_true, if_false]
    split <;> rfl

/-- Witness for C7: concrete legacy runs with buffer-300 manager — all
network timeouts (3 calls, wrapped error); a validation
TokenAcquisitionError on the first attempt (1 call, propagated as-is); a
non-network, non-structured error on the first attempt (1 call). -/
theorem legacy_retry_error_classification_witness :
    TokenManager.acquire_with_legacy_retry ⟨300, ⟨0⟩, none, none⟩
      ⟨none, none, CBData.initial⟩ 0 (fun _ => .error .timeoutExc)
      (fun _ => true) =
      (.error (.tokenAcquisitionError .tokenAcquisitionFailed
        (some .timeoutExc)), ⟨none, none, CBData.initial⟩, 3)
    ∧ TokenManager.acquire_with_legacy_retry ⟨300, ⟨0⟩, none, none⟩
      ⟨none, none, CBData.initial⟩ 0
      (fun _ => .error (.tokenAcquisitionError .tokenValidationFailed none))
      (fun _ => true) =
      (.error (.tokenAcquisitionError .tokenValidationFailed none),
        ⟨none, none, CBData.initial⟩, 1)
    ∧ (TokenManager.acquire_with_legacy_retry ⟨300, ⟨0⟩, none, none⟩
      ⟨none, none, CBData.initial⟩ 0 (fun _ => .error (.otherError 7))
      (fun _ => true)).2.2 = 1 :=
  ⟨(legacy_retry_error_classification ⟨300, ⟨0⟩, none, none⟩
      ⟨none, none, CBData.initial⟩ 0 (fun _ => true)).1
      (fun _ => .error .timeoutExc) (fun _ => .timeoutExc)
      (fun _ => rfl) (fun _ => rfl),
    (legacy_retry_error_classification ⟨300, ⟨0⟩, none, none⟩
      ⟨none, none, CBData.initial⟩ 0 (fun _ => true)).2.1
      (fun _ => .error (.tokenAcquisitionError .tokenValidationFailed none))
      0 .tokenValidationFailed none (by decide)
      (fun k hk => absurd hk (Nat.not_lt_zero k)) rfl,
    (legacy_retry_error_classification ⟨300, ⟨0⟩, none, none⟩
      ⟨none, none, CBData.initial⟩ 0 (fun _ => true)).2.2
      (fun _ => .error (.otherError 7)) (.otherError 7) rfl rfl⟩

/-- C2: with a cached token (ciphertext `c`) and expiry instant `T`,
`get_token` returns the cached token, with no provider invocation and no
state change, exactly when `now + buffer < T`; once `T ≤ now + buffer` it
runs the acquisition pipeline, invoking the provider at least once. In
particular a call at `T − B − 1` is a cache hit and a call at `T − B + 1`
triggers re-acquisition. (Stated for the default manager: no configured
retry, no breaker.) -/
theorem get_token_refresh_window (tm : TokenManager) (st : TMState)
    (provider : Nat → Except PErr OAuthToken) (validate : String → Bool)
    (c : Ciphertext) (T : Int)
    (hc : st.encrypted_cached_token = some c)
    (hkey : c.key = tm.secrets.key)
    (hT : st.token_expiry = some T)
    (hretry : tm.retry_settings = none) (hbr : tm.breaker_settings = none) :
    (∀ now : Int, now + tm.refresh_buffer_seconds < T →
      tm.get_token st now provider validate = (.ok c.plaintext, st, 0))
    ∧ (∀ now : Int, T ≤ now + tm.refresh_buffer_seconds →
      tm.get_token st now provider validate =
        tm.acquire_with_legacy_retry st now provider validate
      ∧ 1 ≤ (tm.get_token st now provider validate).2.2)
    ∧ tm.get_token st (T - tm.refresh_buffer_seconds - 1) provider validate
      = (.ok c.plaintext, st, 0)
    ∧ 1 ≤ (tm.get_token st (T - tm.refresh_buffer_seconds + 1) provider
      validate).2.2 := by
  have hhit : ∀ now : Int, now + tm.refresh_buffer_seconds < T →
      tm.get_token st now provider validate = (.ok c.plaintext, st, 0) := by
    intro now hlt
    have hvalid : tm.is_token_valid st now = true := by
      simp [TokenManager.is_token_valid, hc, hT, hlt]
    simp [TokenManager.get_token, hvalid, TokenManager.get_cached_token,
      hc, SecretsManager.decrypt_secret, hkey]
  have hmiss : ∀ now : Int, T ≤ now + tm.refresh_buffer_seconds →
      tm.get_token st now provider validate =
        tm.acquire_with_legacy_retry st now provider validate
      ∧ 1 ≤ (tm.get_token st now provider validate).2.2 := by
    intro now hge
    have hvalid : tm.is_token_valid st now = false := by
      simp [TokenManager.is_token_valid, hc, hT]; omega
    have heq : tm.get_token st now provider validate =
        tm.acquire_with_legacy_retry st now provider validate := by
      simp [TokenManager.get_token, hvalid, TokenManager.acquire_token,
        hbr, TokenManager.acquire_operation, hretry]
    refine ⟨heq, ?_⟩
    rw [heq]
    exact legacyFrom_min_calls tm now provider validate 2 0 st
  exact ⟨hhit, hmiss, hhit _ (by omega), (hmiss _ (by omega)).2⟩

/-- Witness for C2 at a concrete manager (buffer 300) and cached token
expiring at instant 1000: instants 699 and 701. -/
theorem get_token_refresh_window_witness :
    TokenManager.get_token ⟨300, ⟨0⟩, none, none⟩
      ⟨some ⟨0, "tok"⟩, some 1000, CBData.initial⟩ (1000 - 300 - 1)
      (fun _ => .error .timeoutExc) (fun _ => true) =
      (.ok "tok", ⟨some ⟨0, "tok"⟩, some 1000, CBData.initial⟩, 0)
    ∧ 1 ≤ (TokenManager.get_token ⟨300, ⟨0⟩, none, none⟩
      ⟨some ⟨0, "tok"⟩, some 1000, CBData.initial⟩ (1000 - 300 + 1)
      (fun _ => .error .timeoutExc) (fun _ => true)).2.2 :=
  ⟨(get_token_refresh_window ⟨300, ⟨0⟩, none, none⟩
      ⟨some ⟨0, "tok"⟩, some 1000, CBData.initial⟩
      (fun _ => .error .timeoutExc) (fun _ => true) ⟨0, "tok"⟩ 1000
      rfl rfl rfl rfl rfl).2.2.1,
    (get_token_refresh_window ⟨300, ⟨0⟩, none, none⟩
      ⟨some ⟨0, "tok"⟩, some 1000, CBData.initial⟩
      (fun _ => .error .timeoutExc) (fun _ => true) ⟨0, "tok"⟩ 1000
      rfl rfl rfl rfl rfl).2.2.2⟩

/-- C3: starting with an empty cache, a `get_token` call whose first
provider invocation succeeds with a validating token returns that token
having invoked the provider exactly once and caches it; a second call made
while the token is within its validity window returns the same token from
the cache with zero provider invocations (whatever oracle is supplied for
it). (Default manager: no configured retry, no breaker.) -/
theorem get_token_two_calls_one_acquisition (tm : TokenManager)
    (tok : OAuthToken) (provider provider2 : Nat → Except PErr OAuthToken)
    (validate : String → Bool) (now now2 : Int)
    (hretry : tm.retry_settings = none) (hbr : tm.breaker_settings = none)
    (hp : provider 0 = .ok tok) (hv : validate tok.access_token = true)
    (hwin : now2 + tm.refresh_buffer_seconds < now + tok.expires_in) :
    tm.get_token TMState.initial now provider validate =
      (.ok tok.access_token,
        ⟨some (tm.secrets.encrypt_secret tok.access_token),
          some (now + tok.expires_in), CBData.initial⟩, 1)
    ∧ tm.get_token
        ⟨some (tm.secrets.encrypt_secret tok.access_token),
          some (now + tok.expires_in), CBData.initial⟩ now2 provider2
        validate =
      (.ok tok.access_token,
        ⟨some (tm.secrets.encrypt_secret tok.access_token),
          some (now + tok.expires_in), CBData.initial⟩, 0) := by
  constructor
  · have hleg : tm.legacyFrom now provider validate 0
        MAX_TOKEN_ACQUISITION_RETRIES ⟨none, none, CBData.initial⟩ =
        (.ok tok.access_token,
          ⟨some (tm.secrets.encrypt_secret tok.access_token),
            some (now + tok.expires_in), CBData.initial⟩, 1) :=
      legacyFrom_first_success tm now provider validate 2 0
        ⟨none, none, CBData.initial⟩ tok hp hv
    simp [TokenManager.get_token, TMState.initial,
      TokenManager.is_token_valid, TokenManager.acquire_token, hbr,
      TokenManager.acquire_operation, hretry,
      TokenManager.acquire_with_legacy_retry, hleg]
  · simp [TokenManager.get_token, TokenManager.is_token_valid, hwin,
      TokenManager.get_cached_token, SecretsManager.encrypt_secret,
      SecretsManager.decrypt_secret]

/-- Witness for C3: buffer 300, token lifetime 600, first call at instant
0, second at instant 100. -/
theorem get_token_two_calls_one_acquisition_witness :
    TokenManager.get_token ⟨300, ⟨0⟩, none, none⟩ TMState.initial 0
      (fun _ => .ok ⟨"T1", 600, "Bearer", none, none⟩) (fun _ => true) =
      (.ok "T1", ⟨some ⟨0, "T1"⟩, some 600, CBData.initial⟩, 1)
    ∧ TokenManager.get_token ⟨300, ⟨0⟩, none, none⟩
      ⟨some ⟨0, "T1"⟩, some 600, CBData.initial⟩ 100
      (fun _ => .error .timeoutExc) (fun _ => true) =
      (.ok "T1", ⟨some ⟨0, "T1"⟩, some 600, CBData.initial⟩, 0) :=
  get_token_two_calls_one_acquisition ⟨300, ⟨0⟩, none, none⟩
    ⟨"T1", 600, "Bearer", none, none⟩
    (fun _ => .ok ⟨"T1", 600, "Bearer", none, none⟩)
    (fun _ => .error .timeoutExc) (fun _ => true) 0 100 rfl rfl rfl rfl
    (by decide)

/-- C10: the generic client-credentials provider fails with the
invalid-response TokenAcquisitionError whenever the response body lacks an
`access_token` field (in particular when it is empty or not an object), and
on success defaults `expires_in` to 3600 seconds and `token_type` to
"Bearer" when those fields are absent. -/
theorem generic_acquire_token_response_contract :
    (∀ (td : List (String × JVal)), jlookup td "access_token" = none →
      GenericOAuth2Provider.acquire_token (.ok (some td)) =
        .error (.tokenAcquisitionError .tokenInvalidResponse none))
    ∧ (GenericOAuth2Provider.acquire_token (.ok none) =
        .error (.tokenAcquisitionError .tokenInvalidResponse none))
    ∧ (∀ (td : List (String × JVal)) (s : String),
      jlookup td "access_token" = some (.jstr s) →
      jlookup td "expires_in" = none →
      jlookup td "token_type" = none →
      ∃ tok, GenericOAuth2Provider.acquire_token (.ok (some td)) = .ok tok
        ∧ tok.access_token = s ∧ tok.expires_in = 3600
        ∧ tok.token_type = "Bearer") := by
  refine ⟨?_, rfl, ?_⟩
  · intro td h
    simp [GenericOAuth2Provider.acquire_token, h]
  · intro td s hat hexp hty
    have hne : td.isEmpty = false := by
      cases td with
      | nil => simp [jlookup] at hat
      | cons a l => rfl
    refine ⟨⟨jstrGetD td "access_token" "", jintGetD td "expires_in" 3600,
      jstrGetD td "token_type" "Bearer",
      (jlookup td "refresh_token").map JVal.asStr,
      (jlookup td "scope").map JVal.asStr⟩, ?_, ?_, ?_, ?_⟩
    · simp [GenericOAuth2Provider.acquire_token, hat, hne]
    · simp [jstrGetD, hat, JVal.asStr]
    · simp [jintGetD, hexp]
    · simp [jstrGetD, hty]

/-- Witness for C10 at concrete responses. -/
theorem generic_acquire_token_response_contract_witness :
    GenericOAuth2Provider.acquire_token
      (.ok (some [("expires_in", .jint 600)])) =
      .error (.tokenAcquisitionError .tokenInvalidResponse none)
    ∧ GenericOAuth2Provider.acquire_token (.ok none) =
      .error (.tokenAcquisitionError .tokenInvalidResponse none)
    ∧ ∃ tok, GenericOAuth2Provider.acquire_token
        (.ok (some [("access_token", .jstr "T1")])) = .ok tok
        ∧ tok.access_token = "T1" ∧ tok.expires_in = 3600
        ∧ tok.token_type = "Bearer" :=
  ⟨generic_acquire_token_response_contract.1 [("expires_in", .jint 600)] rfl,
    generic_acquire_token_response_contract.2.1,
    generic_acquire_token_response_contract.2.2
      [("access_token", .jstr "T1")] "T1" rfl rfl rfl⟩

end OrthancOAuth
